import Mathlib

/-!
Shallow embedding of the Go package `try` (dsnet/try, file try.go).

The package raises a non-nil error as a panic whose payload is a private
`wrapError` envelope carrying the error and one captured program counter,
and recovers it at a deferred boundary (`Handle`, `HandleF`, `Recover`,
`F`), re-panicking any payload that is not its own envelope.

Modelling conventions:
- A Go `error` interface value is `Option GoErr` (`none` = nil); a `GoErr`
  carries an identity tag and the string its `Error()` method returns.
- A call stack is a `List Frame`, innermost frame first.  Each modelled
  function that inspects the stack receives the stack whose head is its
  own frame, exactly as the Go runtime would present it.
- Panic/recover is explicit: a body either returns or is unwinding with a
  `Payload`; `recover()` yields `Option Payload` (`none` = no panic).
- Side effects of the recovery callbacks (writes to the `*error` slot,
  callback and sink invocations) are explicit state, with an invocation
  counter / call record as pure instrumentation.
-/

namespace Try

/-- A resolved runtime frame (`runtime.Frame`): source file path and
line number. -/
structure Frame where
  file : String
  line : Nat
deriving DecidableEq, Repr

/-- A Go `error` interface value (non-nil case): an identity tag, used for
interface equality, plus the string its `Error()` method reports.
A nilable `error` is `Option GoErr`. -/
structure GoErr where
  id : Nat
  msg : String
deriving DecidableEq, Repr

/-- `wrapError` wraps an error to ensure that we only recover from errors
panicked by this package.  The `pc [1]uintptr` field is modelled as the at
most one frame that `runtime.Callers` recorded (`none` models a zero pc,
i.e. the stack was shorter than the skip count). -/
structure wrapError where
  error : Option GoErr
  pc : Option Frame
deriving DecidableEq, Repr

/-- `runtime.CallersFrames(pc[:]).Next()` on the one-entry pc slice:
a zero pc resolves to the zero `runtime.Frame` (empty file, line 0). -/
def resolveFrame : Option Frame → Frame
  | some fr => fr
  | none => ⟨"", 0⟩

/-- The backward scan in `wrapError.Error`: walk the filename from its end
(the reversed character list) and keep the characters strictly after the
last path separator, stopping at the first separator found. -/
def lastSegAux : List Char → List Char → List Char
  | [], acc => acc
  | c :: rest, acc => if c = '/' then acc else lastSegAux rest (c :: acc)

/-- Retrieve the last path segment of the filename, as the loop in
`wrapError.Error` does (scan from the end for a slash and drop everything
up to and including it). -/
def lastSeg (file : String) : String :=
  ⟨lastSegAux file.data.reverse []⟩

/-- `wrapError.Error()`: `"<file>:<line>: <msg>"` with directory components
stripped from the file.  Calling it when the wrapped error is nil would
dereference a nil interface in Go, so the model yields `none` there. -/
def wrapError.Error (e : wrapError) : Option String :=
  e.error.map fun g =>
    let frame := resolveFrame e.pc
    lastSeg frame.file ++ ":" ++ toString frame.line ++ ": " ++ g.msg

/-- `wrapError.Unwrap()` returns the wrapped error. -/
def wrapError.Unwrap (e : wrapError) : Option GoErr :=
  e.error

/-- A panic payload (Go `any`): either this package's `wrapError`, or any
other value, abstracted by an opaque identity (the type switch in `r` only
distinguishes the dynamic type `wrapError` from everything else). -/
inductive Payload where
  | wrapped (w : wrapError)
  | foreign (v : Nat)
deriving DecidableEq, Repr

/-- Result of a deferred recovery call: it either returns normally or
panics again; `s` is the final state of its observable effects. -/
inductive ROutcome (σ : Type) where
  | normal (s : σ)
  | repanic (p : Payload) (s : σ)
deriving DecidableEq, Repr

/-- `r(recovered, fn)`: the shared recovery dispatcher.  `recovered` is
what `recover()` returned (`none` when no panic is in flight); `fn`'s side
effects are passed as a state transformer. -/
def r {σ : Type} (recovered : Option Payload) (fn : wrapError → σ → σ) (s : σ) : ROutcome σ :=
  match recovered with
  | none => ROutcome.normal s
  | some (Payload.wrapped ex) => ROutcome.normal (fn ex s)
  | some (Payload.foreign v) => ROutcome.repanic (Payload.foreign v) s

/-- `Handle(&err)`: recovers an error previously panicked with an E
function and stores it into the slot (`*errptr = w.error`).  The state is
the slot's current value. -/
def Handle (recovered : Option Payload) (slot : Option GoErr) : ROutcome (Option GoErr) :=
  r recovered (fun w _ => w.error) slot

/-- Observable state of a `HandleF` region: the error slot plus a count of
callback invocations (the counter is pure instrumentation). -/
structure HState where
  slot : Option GoErr
  fnCalls : Nat
deriving DecidableEq, Repr

/-- `HandleF(&err, fn)`: stores the recovered error into the slot, then,
if that error is non-nil, calls `fn`, which reads and may rewrite the
slot (modelled as a slot transformer). -/
def HandleF (recovered : Option Payload) (fn : Option GoErr → Option GoErr)
    (s : HState) : ROutcome HState :=
  r recovered (fun w st =>
    let st1 : HState := { st with slot := w.error }
    if w.error.isSome then { slot := fn st1.slot, fnCalls := st1.fnCalls + 1 } else st1) s

/-- `Recover(fn)`: hands the wrapped error and its resolved frame to `fn`.
The state records the argument of the at most one call to `fn`
(`none` = `fn` was never invoked). -/
def Recover (recovered : Option Payload) : ROutcome (Option (Option GoErr × Frame)) :=
  r recovered (fun w _ => some (w.error, resolveFrame w.pc)) none

/-- `f(fn, w)` simply calls `fn` with `w` (the `//line` pragma in the
source only adjusts diagnostics); modelled as the value delivered to the
variadic sink. -/
def f (w : wrapError) : wrapError :=
  w

/-- `F(fn)`: recovers and passes the `wrapError` itself to the variadic
sink via `f`.  The state records the argument of the at most one sink
call (`none` = the sink was never invoked). -/
def F (recovered : Option Payload) : ROutcome (Option wrapError) :=
  r recovered (fun w _ => some (f w)) none

/-- Frame of the body of `e` itself; its exact value is irrelevant because
the skip count in `runtime.Callers` steps over it. -/
def eFrame : Frame :=
  ⟨"try.go", 205⟩

/-- `runtime.Callers(skip, pc[:1])` invoked with its caller's stack (head
= the function calling `runtime.Callers`).  Per the Go runtime, skip 0
identifies `runtime.Callers` itself and skip 1 its caller, so the single
recorded frame is the caller stack's entry at index `skip - 1`. -/
def runtimeCallers (skip : Nat) (stack : List Frame) : Option Frame :=
  stack.get? (skip - 1)

/-- `e(err)`: wrap `err` together with the pc of the caller of the E
function (`skip` 3 steps over `runtime.Callers`, `e` and `E`) and panic
with the envelope.  `stack`'s head is `e`'s own frame. -/
def e (err : Option GoErr) (stack : List Frame) : Payload :=
  Payload.wrapped { error := err, pc := runtimeCallers 3 stack }

/-- Result of calling one of the E functions: a normal return carrying the
accompanying values, or a panic. -/
inductive Outcome (α : Type) where
  | ret (a : α)
  | panic (p : Payload)
deriving DecidableEq, Repr

/-- `E(err)`: panics if `err` is non-nil.  `stack`'s head is E's own
frame, so E's caller (the raise site) is the next entry; calling `e`
pushes `e`'s frame. -/
def E (err : Option GoErr) (stack : List Frame) : Outcome Unit :=
  if err.isSome then Outcome.panic (e err (eFrame :: stack)) else Outcome.ret ()

/-- `E1(a, err)`: returns `a` as is; panics if `err` is non-nil. -/
def E1 {A : Type} (a : A) (err : Option GoErr) (stack : List Frame) : Outcome A :=
  if err.isSome then Outcome.panic (e err (eFrame :: stack)) else Outcome.ret a

/-- `E2(a, b, err)`: returns `a` and `b` as is; panics if `err` is non-nil. -/
def E2 {A B : Type} (a : A) (b : B) (err : Option GoErr) (stack : List Frame) :
    Outcome (A × B) :=
  if err.isSome then Outcome.panic (e err (eFrame :: stack)) else Outcome.ret (a, b)

/-- `E3(a, b, c, err)`: returns `a`, `b` and `c` as is; panics if `err` is
non-nil. -/
def E3 {A B C : Type} (a : A) (b : B) (c : C) (err : Option GoErr) (stack : List Frame) :
    Outcome (A × B × C) :=
  if err.isSome then Outcome.panic (e err (eFrame :: stack)) else Outcome.ret (a, b, c)

/-- `E4(a, b, c, d, err)`: returns `a`, `b`, `c` and `d` as is; panics if
`err` is non-nil. -/
def E4 {A B C D : Type} (a : A) (b : B) (c : C) (d : D) (err : Option GoErr)
    (stack : List Frame) : Outcome (A × B × C × D) :=
  if err.isSome then Outcome.panic (e err (eFrame :: stack)) else Outcome.ret (a, b, c, d)

/-- State of a guarded region at the moment its deferred recovery runs:
either the body returned (no panic in flight) or a panic with payload `p`
is unwinding.  `slot` is the current value of the named error result. -/
inductive Body where
  | ret (slot : Option GoErr)
  | panicking (p : Payload) (slot : Option GoErr)
deriving DecidableEq, Repr

/-- What `recover()` yields inside the deferred handler. -/
def Body.recovered : Body → Option Payload
  | Body.ret _ => none
  | Body.panicking p _ => some p

/-- The error slot's value when the deferred handler runs. -/
def Body.slot : Body → Option GoErr
  | Body.ret s => s
  | Body.panicking _ s => s

/-- `func g() (err error) { defer Handle(&err); ... }`: the deferred
`Handle` applied to the region's exit state. -/
def runHandle (b : Body) : ROutcome (Option GoErr) :=
  Handle b.recovered b.slot

/-- `func g() (err error) { defer HandleF(&err, fn); ... }`. -/
def runHandleF (fn : Option GoErr → Option GoErr) (b : Body) : ROutcome HState :=
  HandleF b.recovered fn ⟨b.slot, 0⟩

/-- `func g() { defer Recover(fn); ... }`. -/
def runRecover (b : Body) : ROutcome (Option (Option GoErr × Frame)) :=
  Recover b.recovered

/-- `func g() { defer F(sink); ... }`. -/
def runF (b : Body) : ROutcome (Option wrapError) :=
  F b.recovered

/-- Fate of the flow enclosing a region guarded by `F(sink)` when the sink
never returns (as with `testing.TB.Fatal` or `log.Fatal`). -/
inductive FlowResult where
  | ret (slot : Option GoErr)
  | terminated (delivered : wrapError)
  | panicked (p : Payload)
deriving DecidableEq, Repr

/-- `defer F(sink)` with a never-returning sink: if the sink is invoked
the enclosing flow is aborted with the delivered value; otherwise `F`
behaves as a plain deferred call. -/
def runFTerminal (b : Body) : FlowResult :=
  match F b.recovered with
  | ROutcome.normal none => FlowResult.ret b.slot
  | ROutcome.normal (some w) => FlowResult.terminated w
  | ROutcome.repanic p _ => FlowResult.panicked p

/-- C1: a non-nil cause `c` raised by an E function inside a region guarded
by `Handle(&err)` is stored exactly, with identity unchanged, into the
output slot: the region ends normally with slot = `c`, whatever the slot
held before. -/
theorem handle_stores_exact_cause (c : GoErr) (stack : List Frame)
    (s : Option GoErr) (p : Payload) (h : E (some c) stack = Outcome.panic p) :
    runHandle (Body.panicking p s) = ROutcome.normal (some c) := by
  simp only [E, Option.isSome_some, if_true, Outcome.panic.injEq] at h
  subst h
  simp [runHandle, Handle, r, Body.recovered, Body.slot, e]

/-- Witness for C1 at a concrete raise site and cause. -/
theorem handle_stores_exact_cause_witness :
    runHandle (Body.panicking
        (Payload.wrapped ⟨some ⟨1, "EOF"⟩, some ⟨"main.go", 10⟩⟩) none)
      = ROutcome.normal (some ⟨1, "EOF"⟩) :=
  handle_stores_exact_cause ⟨1, "EOF"⟩ [⟨"try.go", 211⟩, ⟨"main.go", 10⟩] none _ rfl

/-- C2: each of E, E1, E2, E3, E4 returns normally (with its accompanying
values) exactly when the trailing error is nil, and with a non-nil error
the outcome is a panic carrying a wrapError envelope that wraps that very
error, so the call never returns. -/
theorem raise_iff_error_nonnil {A B C D : Type} (a : A) (b : B) (cv : C) (d : D)
    (err : Option GoErr) (stack : List Frame) :
    ((∃ u, E err stack = Outcome.ret u) ↔ err = none) ∧
    ((∃ x, E1 a err stack = Outcome.ret x) ↔ err = none) ∧
    ((∃ x, E2 a b err stack = Outcome.ret x) ↔ err = none) ∧
    ((∃ x, E3 a b cv err stack = Outcome.ret x) ↔ err = none) ∧
    ((∃ x, E4 a b cv d err stack = Outcome.ret x) ↔ err = none) ∧
    (err = none →
      E err stack = Outcome.ret () ∧ E1 a err stack = Outcome.ret a ∧
      E2 a b err stack = Outcome.ret (a, b) ∧
      E3 a b cv err stack = Outcome.ret (a, b, cv) ∧
      E4 a b cv d err stack = Outcome.ret (a, b, cv, d)) ∧
    (∀ g, err = some g →
      E err stack = Outcome.panic
        (Payload.wrapped ⟨some g, runtimeCallers 3 (eFrame :: stack)⟩) ∧
      E1 a err stack = Outcome.panic
        (Payload.wrapped ⟨some g, runtimeCallers 3 (eFrame :: stack)⟩) ∧
      E2 a b err stack = Outcome.panic
        (Payload.wrapped ⟨some g, runtimeCallers 3 (eFrame :: stack)⟩) ∧
      E3 a b cv err stack = Outcome.panic
        (Payload.wrapped ⟨some g, runtimeCallers 3 (eFrame :: stack)⟩) ∧
      E4 a b cv d err stack = Outcome.panic
        (Payload.wrapped ⟨some g, runtimeCallers 3 (eFrame :: stack)⟩)) := by
  cases err with
  | none => simp [E, E1, E2, E3, E4]
  | some g => simp [E, E1, E2, E3, E4, e]

/-- Witness for C2 at a concrete error and concrete accompanying values. -/
theorem raise_iff_error_nonnil_witness :
    E1 (7 : Nat) (some ⟨1, "EOF"⟩) [⟨"try.go", 218⟩, ⟨"main.go", 10⟩]
      = Outcome.panic (Payload.wrapped ⟨some ⟨1, "EOF"⟩,
          runtimeCallers 3 (eFrame :: [⟨"try.go", 218⟩, ⟨"main.go", 10⟩])⟩) :=
  ((raise_iff_error_nonnil (7 : Nat) "b" true (2 : Int) (some ⟨1, "EOF"⟩)
      [⟨"try.go", 218⟩, ⟨"main.go", 10⟩]).2.2.2.2.2.2 ⟨1, "EOF"⟩ rfl).2.1

/-- C3: with a nil trailing error every arity returns its accompanying
values unchanged, and the result does not depend on the call stack at all
(no stack walk is performed on the success path). -/
theorem nil_error_identity {A B C D : Type} (a : A) (b : B) (cv : C) (d : D)
    (stack stack2 : List Frame) :
    E none stack = Outcome.ret () ∧
    E1 a none stack = Outcome.ret a ∧
    E2 a b none stack = Outcome.ret (a, b) ∧
    E3 a b cv none stack = Outcome.ret (a, b, cv) ∧
    E4 a b cv d none stack = Outcome.ret (a, b, cv, d) ∧
    E none stack = E none stack2 ∧
    E1 a none stack = E1 a none stack2 ∧
    E2 a b none stack = E2 a b none stack2 ∧
    E3 a b cv none stack = E3 a b cv none stack2 ∧
    E4 a b cv d none stack = E4 a b cv d none stack2 :=
  ⟨rfl, rfl, rfl, rfl, rfl, rfl, rfl, rfl, rfl, rfl⟩

/-- C4: a panic payload that is not this package's wrapError is re-raised
unchanged by each recovery function; the error slot is left as it was, the
HandleF callback is never invoked, and neither the Recover callback nor
the F sink is called, so the foreign payload reaches any outer boundary. -/
theorem foreign_payload_passthrough (v : Nat) (s : Option GoErr)
    (fn : Option GoErr → Option GoErr) :
    runHandle (Body.panicking (Payload.foreign v) s)
      = ROutcome.repanic (Payload.foreign v) s ∧
    runHandleF fn (Body.panicking (Payload.foreign v) s)
      = ROutcome.repanic (Payload.foreign v) ⟨s, 0⟩ ∧
    runRecover (Body.panicking (Payload.foreign v) s)
      = ROutcome.repanic (Payload.foreign v) none ∧
    runF (Body.panicking (Payload.foreign v) s)
      = ROutcome.repanic (Payload.foreign v) none :=
  ⟨rfl, rfl, rfl, rfl⟩

/-- C5: when a cause is raised inside a region guarded by
`HandleF(&err, fn)`, the callback runs exactly once, it observes the slot
already holding the cause, and the region's final error is whatever the
callback rewrote the slot to, not the original cause. -/
theorem handleF_callback_rewrites (fn : Option GoErr → Option GoErr) (c : GoErr)
    (stack : List Frame) (s : Option GoErr) (p : Payload)
    (h : E (some c) stack = Outcome.panic p) :
    runHandleF fn (Body.panicking p s) = ROutcome.normal ⟨fn (some c), 1⟩ := by
  simp only [E, Option.isSome_some, if_true, Outcome.panic.injEq] at h
  subst h
  simp [runHandleF, HandleF, r, Body.recovered, Body.slot, e]

/-- Witness for C5: a callback that maps the sentinel EOF to a different
sentinel; the region returns the rewritten sentinel, not the cause. -/
theorem handleF_callback_rewrites_witness :
    runHandleF (fun x => if x = some ⟨1, "EOF"⟩ then some ⟨2, "unexpected EOF"⟩ else x)
      (Body.panicking (Payload.wrapped ⟨some ⟨1, "EOF"⟩, some ⟨"main.go", 10⟩⟩) none)
      = ROutcome.normal ⟨some ⟨2, "unexpected EOF"⟩, 1⟩ := by
  have := handleF_callback_rewrites
    (fun x => if x = some ⟨1, "EOF"⟩ then some ⟨2, "unexpected EOF"⟩ else x)
    ⟨1, "EOF"⟩ [⟨"try.go", 211⟩, ⟨"main.go", 10⟩] none _ rfl
  simpa using this

/-- C6: when the guarded region exits normally (no panic in flight), each
recovery function is a no-op: the slot keeps its value, the HandleF
callback does not run, and neither the Recover callback nor the F sink is
invoked. -/
theorem normal_exit_noop (s : Option GoErr) (fn : Option GoErr → Option GoErr) :
    runHandle (Body.ret s) = ROutcome.normal s ∧
    runHandleF fn (Body.ret s) = ROutcome.normal ⟨s, 0⟩ ∧
    runRecover (Body.ret s) = ROutcome.normal none ∧
    runF (Body.ret s) = ROutcome.normal none :=
  ⟨rfl, rfl, rfl, rfl⟩

/-- The backward scan, fed a reversed filename that ends (in scan order,
i.e. begins in file order) with a separator after a separator-free
suffix, yields exactly that suffix. -/
lemma lastSegAux_append (l rest acc : List Char) (h : '/' ∉ l) :
    lastSegAux (l ++ '/' :: rest) acc = l.reverse ++ acc := by
  induction l generalizing acc with
  | nil => simp [lastSegAux]
  | cons x xs ih =>
    simp only [List.mem_cons, not_or] at h
    have hx : ¬x = '/' := fun hc => h.1 hc.symm
    simp [lastSegAux, hx, ih _ h.2]

/-- The backward scan on a separator-free filename keeps every character:
the loop reaches the front without finding a slash. -/
lemma lastSegAux_no_slash (l acc : List Char) (h : '/' ∉ l) :
    lastSegAux l acc = l.reverse ++ acc := by
  induction l generalizing acc with
  | nil => simp [lastSegAux]
  | cons x xs ih =>
    simp only [List.mem_cons, not_or] at h
    have hx : ¬x = '/' := fun hc => h.1 hc.symm
    simp [lastSegAux, hx, ih _ h.2]

/-- Stripping directories: on a path of the shape `dir ++ "/" ++ base`
with a separator-free `base`, the scan keeps exactly `base`. -/
lemma lastSeg_strip (dir base : String) (h : '/' ∉ base.data) :
    lastSeg (dir ++ "/" ++ base) = base := by
  unfold lastSeg
  have hd : (dir ++ "/" ++ base).data = dir.data ++ '/' :: base.data := by
    simp [String.data_append]
  rw [hd, List.reverse_append, List.reverse_cons, List.append_assoc,
    List.singleton_append,
    lastSegAux_append _ _ _ (by simpa using h)]
  simp

/-- Stripping directories: a path with no separator at all is its own
final segment and is kept whole. -/
lemma lastSeg_id (file : String) (h : '/' ∉ file.data) :
    lastSeg file = file := by
  unfold lastSeg
  rw [lastSegAux_no_slash _ _ (by simpa using h)]
  simp

/-- C7: for every origin and cause, the diagnostic string is
`<final path segment>:<line>: <cause message>`.  Every file path falls
under one of the two conjuncts: a path with no separator is its own final
segment and is kept whole, and a path `dir ++ "/" ++ base` whose `base`
is separator-free has exactly `base` as its final segment. -/
theorem wrapError_format (file : String) (line : Nat) (c : GoErr) :
    (('/' ∉ file.data) →
      wrapError.Error ⟨some c, some ⟨file, line⟩⟩ =
        some (file ++ ":" ++ toString line ++ ": " ++ c.msg)) ∧
    (∀ dir base, file = dir ++ "/" ++ base → '/' ∉ base.data →
      wrapError.Error ⟨some c, some ⟨file, line⟩⟩ =
        some (base ++ ":" ++ toString line ++ ": " ++ c.msg)) := by
  constructor
  · intro h
    simp [wrapError.Error, resolveFrame, lastSeg_id file h]
  · intro dir base hf h
    subst hf
    simp [wrapError.Error, resolveFrame, lastSeg_strip dir base h]

/-- Witness for C7: a raise at line 10 of the separator-free file `y`, and
one at line 10 of file `x/y`, both format as the literal `"y:10: EOF"`. -/
theorem wrapError_format_witness :
    ('/' ∉ ("y" : String).data) ∧
    wrapError.Error ⟨some ⟨1, "EOF"⟩, some ⟨"y", 10⟩⟩ =
      some ("y" ++ ":" ++ toString (10 : Nat) ++ ": " ++ "EOF") ∧
    wrapError.Error ⟨some ⟨1, "EOF"⟩, some ⟨"x" ++ "/" ++ "y", 10⟩⟩ =
      some ("y" ++ ":" ++ toString (10 : Nat) ++ ": " ++ "EOF") ∧
    ("y" ++ ":" ++ toString (10 : Nat) ++ ": " ++ "EOF") = "y:10: EOF" :=
  ⟨by decide,
   (wrapError_format "y" 10 ⟨1, "EOF"⟩).1 (by decide),
   (wrapError_format ("x" ++ "/" ++ "y") 10 ⟨1, "EOF"⟩).2 "x" "y" rfl (by decide),
   rfl⟩

/-- C8: for every arity, raising with a non-nil error captures as origin
exactly the frame of the E function's caller (the raise site the
programmer wrote): with the E function's own frame on top of the stack,
the recorded pc is the next frame, for E and E1 through E4 alike. -/
theorem origin_matches_call_site {A B C D : Type} (a : A) (b : B) (cv : C) (d : D)
    (g : GoErr) (Ef site : Frame) (rest : List Frame) :
    E (some g) (Ef :: site :: rest)
      = Outcome.panic (Payload.wrapped ⟨some g, some site⟩) ∧
    E1 a (some g) (Ef :: site :: rest)
      = Outcome.panic (Payload.wrapped ⟨some g, some site⟩) ∧
    E2 a b (some g) (Ef :: site :: rest)
      = Outcome.panic (Payload.wrapped ⟨some g, some site⟩) ∧
    E3 a b cv (some g) (Ef :: site :: rest)
      = Outcome.panic (Payload.wrapped ⟨some g, some site⟩) ∧
    E4 a b cv d (some g) (Ef :: site :: rest)
      = Outcome.panic (Payload.wrapped ⟨some g, some site⟩) :=
  ⟨rfl, rfl, rfl, rfl, rfl⟩

/-- C9: under `F(sink)` with a never-returning sink, a cause raised by an
E function ends the enclosing flow as terminated, delivering to the sink
the envelope whose diagnostic string is `file:line: cause` for the raise
site; in particular the flow never resumes with a normal return. -/
theorem f_terminal_delivers (g : GoErr) (Ef site : Frame) (rest : List Frame)
    (s : Option GoErr) (p : Payload)
    (h : E (some g) (Ef :: site :: rest) = Outcome.panic p) :
    runFTerminal (Body.panicking p s) = FlowResult.terminated ⟨some g, some site⟩ ∧
    wrapError.Error ⟨some g, some site⟩ =
      some (lastSeg site.file ++ ":" ++ toString site.line ++ ": " ++ g.msg) ∧
    ∀ s2, runFTerminal (Body.panicking p s) ≠ FlowResult.ret s2 := by
  simp only [E, Option.isSome_some, if_true, Outcome.panic.injEq] at h
  subst h
  refine ⟨rfl, ?_, ?_⟩
  · simp [wrapError.Error, resolveFrame]
  · intro s2
    simp [runFTerminal, F, f, r, Body.recovered, e, runtimeCallers]

/-- Witness for C9 at a concrete raise site and cause. -/
theorem f_terminal_delivers_witness :
    runFTerminal (Body.panicking
        (Payload.wrapped ⟨some ⟨1, "EOF"⟩, some ⟨"y", 10⟩⟩) none)
      = FlowResult.terminated ⟨some ⟨1, "EOF"⟩, some ⟨"y", 10⟩⟩ :=
  (f_terminal_delivers ⟨1, "EOF"⟩ ⟨"try.go", 211⟩ ⟨"y", 10⟩ [] none _ rfl).1

/-- C10: the envelope an E-raise hands to F's sink unwraps, via
`wrapError.Unwrap`, to exactly the original cause, so identity and
sentinel comparisons on the delivered value still see the cause. -/
theorem unwrap_roundtrip (g : GoErr) (stack : List Frame) (s : Option GoErr)
    (p : Payload) (h : E (some g) stack = Outcome.panic p) :
    ∃ w, p = Payload.wrapped w ∧
      runF (Body.panicking p s) = ROutcome.normal (some w) ∧
      wrapError.Unwrap w = some g := by
  simp only [E, Option.isSome_some, if_true, Outcome.panic.injEq] at h
  subst h
  exact ⟨_, rfl, rfl, rfl⟩

/-- Witness for C10 at a concrete raise. -/
theorem unwrap_roundtrip_witness :
    ∃ w, Payload.wrapped ⟨some ⟨1, "EOF"⟩, some ⟨"main.go", 10⟩⟩ = Payload.wrapped w ∧
      runF (Body.panicking
        (Payload.wrapped ⟨some ⟨1, "EOF"⟩, some ⟨"main.go", 10⟩⟩) none)
        = ROutcome.normal (some w) ∧
      wrapError.Unwrap w = some ⟨1, "EOF"⟩ :=
  unwrap_roundtrip ⟨1, "EOF"⟩ [⟨"try.go", 211⟩, ⟨"main.go", 10⟩] none _ rfl

end Try
